import Mathlib

/-!
Verification of the board/field state model of EvolutionSim_rs
(src/board.rs), shallowly embedded in Lean 4.

Embedding conventions:
* `usize` values are modelled as `Nat`; where the source performs
  arithmetic that can overflow (`Size::len`, which multiplies two `usize`
  values) the result is reduced modulo `2 ^ 64`, matching the wrapping
  behaviour of release-mode Rust.  Inputs are `Nat`s understood to be
  representable (below `2 ^ 64`).
* `u32` values are modelled as `Nat`s below `2 ^ 32`.
* The `f32` cell values are never computed with by this core (they are
  only stored, copied and compared for identity), so the scalar type of a
  field is a type parameter `α`; `Vec<f32>` becomes `List α`.
* `Result<T, E>` becomes `Except E T`.
-/

namespace EvolutionSim

/-- The modulus of `usize` arithmetic on a 64-bit target. -/
def USIZE : Nat := 2 ^ 64

/-- The size of the map (src/board.rs, `struct Size`): width `w` and
height `h`. -/
structure Size where
  w : Nat
  h : Nat
deriving DecidableEq, Repr

/-- `Size::new` (src/board.rs line 135): stores both components. -/
def Size.new (w h : Nat) : Size :=
  { w := w, h := h }

/-- `Size::size` (src/board.rs line 149): returns the size as the tuple
`(w, h)`. -/
def Size.size (s : Size) : Nat × Nat :=
  (s.w, s.h)

/-- The name of the public read accessor of `Size` that returns both
components, as declared in src/board.rs line 149 (`pub fn size`). -/
def Size.accessorName : String := "size"

/-- `Size::len` (src/board.rs line 163): `self.w * self.h` as a `usize`
multiplication, which wraps modulo `2 ^ 64` on overflow. -/
def Size.len (s : Size) : Nat :=
  (s.w * s.h) % USIZE

/-- `Size::stride` (src/board.rs line 168): returns `self.w`. -/
def Size.stride (s : Size) : Nat :=
  s.w

/-- All the multipliers for the fields (src/board.rs, `struct
Multipliers`): the light multiplier is a `u32`. -/
structure Multipliers where
  light : Nat
deriving DecidableEq, Repr

/-- `Multipliers::new` (src/board.rs line 59): stores the raw value. -/
def Multipliers.new (light : Nat) : Multipliers :=
  { light := light }

/-- All the fields (src/board.rs, `struct Fields`): a size together with
the light field, one scalar per cell.  The scalar type `α` stands for
`f32`, which this core only stores. -/
structure Fields (α : Type) where
  size : Size
  light : List α
deriving DecidableEq, Repr

/-- The error returned by `Fields::new` (src/board.rs, `enum
FieldCreateError`): variant `Size` carries the offending field name, the
actual length and the `Size` it was checked against. -/
inductive FieldCreateError where
  | Size (name : String) (len : Nat) (size : EvolutionSim.Size)
deriving DecidableEq, Repr

/-- `Fields::new` (src/board.rs lines 97-108): checks that the light
array has exactly `size.len()` entries; on mismatch returns
`FieldCreateError::Size` with name `"Light"`, the actual length and the
size, otherwise stores a copy of the array. -/
def Fields.new {α : Type} (size : Size) (light : List α) :
    Except FieldCreateError (Fields α) :=
  let len := size.len
  if light.length ≠ len then
    Except.error (FieldCreateError.Size "Light" light.length size)
  else
    Except.ok { size := size, light := light }

/-- The board (src/board.rs, `struct Board`): multipliers plus fields. -/
structure Board (α : Type) where
  multipliers : Multipliers
  fields : Fields α
deriving DecidableEq, Repr

/-- `Board::new` (src/board.rs line 31): stores both components. -/
def Board.new {α : Type} (multipliers : Multipliers) (fields : Fields α) :
    Board α :=
  { multipliers := multipliers, fields := fields }

/-!
Rendering of `FieldCreateError` as a human-readable message.

The source derives `Display` through `thiserror` (src/board.rs line 175):
the format string interpolates `name`, `len`, `size.len()` and `size`,
each with the `Debug` formatter.  `Debug` on a Rust `String` surrounds it
with double quotes and escapes its characters; `Debug` on `usize` prints
it in decimal; the derived `Debug` on `Size` prints
`Size \x7b w: <w>, h: <h> \x7d`.
-/

/-- Rust `char::escape_debug` as used by `Debug` on strings: escapes the
double quote, the backslash, newline, carriage return and tab, keeps
printable ASCII, and renders other code points as a `\u` escape.  (For
printable non-ASCII code points Rust keeps the character; the theorems
below are stated only for ASCII names, where this function is exact.) -/
def escapeDebugChar (c : Char) : String :=
  if c = '"' then "\\\""
  else if c = '\\' then "\\\\"
  else if c = '\n' then "\\n"
  else if c = '\r' then "\\r"
  else if c = '\t' then "\\t"
  else if 0x20 ≤ c.toNat ∧ c.toNat ≤ 0x7e then String.singleton c
  else "\\u\x7b" ++ (Nat.toDigits 16 c.toNat).asString ++ "\x7d"

/-- Escape every character of a list, concatenating the results. -/
def escapeDebugList : List Char → String
  | [] => ""
  | c :: cs => escapeDebugChar c ++ escapeDebugList cs

/-- Rust `Debug` rendering of a `String`: quoted and escaped. -/
def debugString (s : String) : String :=
  "\"" ++ escapeDebugList s.toList ++ "\""

/-- Rust derived `Debug` rendering of `Size`. -/
def debugSize (s : Size) : String :=
  "Size \x7b w: " ++ toString s.w ++ ", h: " ++ toString s.h ++ " \x7d"

/-- The `Display` message of `FieldCreateError` generated by the
`thiserror` attribute on src/board.rs line 175: the format string with
`name`, `len`, `size.len()` and `size` interpolated via `Debug`. -/
def FieldCreateError.message : FieldCreateError → String
  | FieldCreateError.Size name len size =>
      debugString name ++ " field has wrong size (" ++ toString len ++
        ") should be (" ++ toString size.len ++
        ") on board with size " ++ debugSize size

/-- Modelled from the spec's words for comparison (section 7 of the
spec): the template
`<name> field has wrong size (<len>) should be (<size.len()>) on board
with size <size>` with `<name>` replaced by the carried name itself
(unquoted), `<len>` by the carried length, `<size.len()>` by the cell
count and `<size>` by the rendering of the size. -/
def specMessage (name : String) (len : Nat) (size : Size) : String :=
  name ++ " field has wrong size (" ++ toString len ++
    ") should be (" ++ toString size.len ++
    ") on board with size " ++ debugSize size

/-- A character that `escape_debug` maps to itself: printable ASCII other
than the double quote and the backslash. -/
def plainChar (c : Char) : Bool :=
  decide (0x20 ≤ c.toNat) && decide (c.toNat ≤ 0x7e) &&
    c != '"' && c != '\\'

end EvolutionSim

namespace EvolutionSim

/-! Helper lemmas about `Debug` escaping of plain ASCII strings. -/

/-- A plain character escapes to itself. -/
theorem escapeDebugChar_plain (c : Char) (h : plainChar c = true) :
    escapeDebugChar c = String.singleton c := by
  simp only [plainChar, Bool.and_eq_true, decide_eq_true_eq, bne_iff_ne]
    at h
  obtain ⟨⟨⟨h1, h2⟩, h3⟩, h4⟩ := h
  have hn : c ≠ '\n' := by
    intro he
    subst he
    simp at h1
  have hr : c ≠ '\r' := by
    intro he
    subst he
    simp at h1
  have ht : c ≠ '\t' := by
    intro he
    subst he
    simp at h1
  simp [escapeDebugChar, h1, h2, h3, h4, hn, hr, ht]

/-- A list of plain characters escapes to itself. -/
theorem escapeDebugList_plain (l : List Char)
    (h : ∀ c ∈ l, plainChar c = true) :
    escapeDebugList l = String.mk l := by
  induction l with
  | nil => rfl
  | cons c cs ih =>
    have hc : escapeDebugChar c = String.singleton c :=
      escapeDebugChar_plain c (h c (List.mem_cons_self c cs))
    have hcs : escapeDebugList cs = String.mk cs :=
      ih (fun d hd => h d (List.mem_cons_of_mem c hd))
    show escapeDebugChar c ++ escapeDebugList cs = String.mk (c :: cs)
    rw [hc, hcs]
    rfl

/-- `Debug` on a plain ASCII string just wraps it in quotes. -/
theorem debugString_plain (s : String)
    (h : s.toList.all plainChar = true) :
    debugString s = "\"" ++ s ++ "\"" := by
  rw [List.all_eq_true] at h
  unfold debugString
  rw [escapeDebugList_plain s.toList h]
  cases s
  rfl

/-! The claims. -/

/-- Claim C1: for every `Size` `s` and array `a` with
`a.length ≠ s.len()`, `Fields::new(s, a)` fails with
`FieldCreateError::Size` carrying name `"Light"`, `len = a.length` and
`size = s`. -/
theorem C1_fields_new_mismatch_error {α : Type} (s : Size) (a : List α)
    (h : a.length ≠ s.len) :
    Fields.new s a =
      Except.error (FieldCreateError.Size "Light" a.length s) := by
  unfold Fields.new
  simp [h]

/-- Witness for C1 at `s = Size::new(2, 2)`, `a = [1, 2, 3]`. -/
theorem C1_fields_new_mismatch_error_witness :
    ([1, 2, 3] : List Nat).length ≠ (Size.new 2 2).len ∧
      Fields.new (Size.new 2 2) ([1, 2, 3] : List Nat) =
        Except.error
          (FieldCreateError.Size "Light" ([1, 2, 3] : List Nat).length
            (Size.new 2 2)) :=
  ⟨by decide, C1_fields_new_mismatch_error (Size.new 2 2) [1, 2, 3]
    (by decide)⟩

/-- Claim C2: for every `Size` `s` and array `a` with
`a.length = s.len()`, `Fields::new(s, a)` succeeds, storing exactly `a`
as the light sequence and `s` as the size. -/
theorem C2_fields_new_roundtrip {α : Type} (s : Size) (a : List α)
    (h : a.length = s.len) :
    Fields.new s a = Except.ok { size := s, light := a } := by
  unfold Fields.new
  simp [h]

/-- Witness for C2 at `s = Size::new(2, 2)`, `a = [10, 20, 30, 40]`. -/
theorem C2_fields_new_roundtrip_witness :
    ([10, 20, 30, 40] : List Nat).length = (Size.new 2 2).len ∧
      Fields.new (Size.new 2 2) ([10, 20, 30, 40] : List Nat) =
        Except.ok
          { size := Size.new 2 2, light := [10, 20, 30, 40] } :=
  ⟨by decide, C2_fields_new_roundtrip (Size.new 2 2) [10, 20, 30, 40]
    (by decide)⟩


/-- Claim C3 counterexample: at width and height `2 ^ 32` the `usize`
product in `Size::len` wraps, so `len()` does not equal the mathematical
product `w * h`. -/
theorem C3_len_unconditional_counterexample :
    (Size.new (2 ^ 32) (2 ^ 32)).len ≠ 2 ^ 32 * 2 ^ 32 := by
  decide

/-- Claim C3 (amended): for every width `w` and height `h` whose product
is representable in `usize` (no overflow), `Size::new(w, h).len()` equals
`w * h` and `Size::new(w, h).stride()` equals `w`. -/
theorem C3_len_stride (w h : Nat) (hlt : w * h < USIZE) :
    (Size.new w h).len = w * h ∧ (Size.new w h).stride = w := by
  refine ⟨?_, rfl⟩
  simp [Size.len, Size.new, Nat.mod_eq_of_lt hlt]

/-- Witness for C3 (amended) at `w = 512`, `h = 256`. -/
theorem C3_len_stride_witness :
    512 * 256 < USIZE ∧
      (Size.new 512 256).len = 512 * 256 ∧
        (Size.new 512 256).stride = 512 :=
  ⟨by decide, C3_len_stride 512 256 (by decide)⟩

/-- Claim C4: every `Fields` obtainable through the public API satisfies
`light.length = size.len()`: `Fields::new` establishes it whenever it
succeeds, and composing into a board through `Board::new` stores the
`Fields` value unchanged, so no core operation invalidates it. -/
theorem C4_fields_invariant {α : Type} (s : Size) (a : List α)
    (f : Fields α) (m : Multipliers)
    (h : Fields.new s a = Except.ok f) :
    f.light.length = f.size.len ∧ (Board.new m f).fields = f := by
  unfold Fields.new at h
  by_cases hc : a.length = s.len
  · simp [hc] at h
    subst h
    exact ⟨hc, rfl⟩
  · simp [hc] at h

/-- Witness for C4 at `s = Size::new(2, 2)`, `a = [10, 20, 30, 40]`,
`m = Multipliers::new(1024)`. -/
theorem C4_fields_invariant_witness :
    Fields.new (Size.new 2 2) ([10, 20, 30, 40] : List Nat) =
        Except.ok { size := Size.new 2 2, light := [10, 20, 30, 40] } ∧
      ({ size := Size.new 2 2,
          light := [10, 20, 30, 40] } : Fields Nat).light.length =
          ({ size := Size.new 2 2,
              light := [10, 20, 30, 40] } : Fields Nat).size.len ∧
        (Board.new (Multipliers.new 1024)
            { size := Size.new 2 2, light := [10, 20, 30, 40] }).fields =
          ({ size := Size.new 2 2, light := [10, 20, 30, 40] } :
            Fields Nat) :=
  ⟨rfl, C4_fields_invariant (Size.new 2 2) [10, 20, 30, 40]
    { size := Size.new 2 2, light := [10, 20, 30, 40] }
    (Multipliers.new 1024) rfl⟩

/-- Claim C5 counterexample: the message rendered for
`FieldCreateError::Size \x7b name: "Light", len: 3, size: Size::new(2, 2) \x7d`
is not the spec's template with the carried name substituted verbatim:
the `\x7b:?\x7d` formatter renders the name `Debug`-quoted, as
`"Light"`, not `Light`. -/
theorem C5_message_counterexample :
    FieldCreateError.message
        (FieldCreateError.Size "Light" 3 (Size.new 2 2)) ≠
      specMessage "Light" 3 (Size.new 2 2) := by
  decide

/-- Claim C5 (amended): for every name made of printable ASCII characters
other than the quote and the backslash, and every `len` and `size`, the
message is the spec's template with `<name>` replaced by the name wrapped
in double quotes (its `Debug` rendering) rather than by the bare name. -/
theorem C5_message_debug_quoted (name : String) (len : Nat) (size : Size)
    (h : name.toList.all plainChar = true) :
    FieldCreateError.message (FieldCreateError.Size name len size) =
      specMessage ("\"" ++ name ++ "\"") len size := by
  show debugString name ++ " field has wrong size (" ++ toString len ++
      ") should be (" ++ toString size.len ++
      ") on board with size " ++ debugSize size = _
  rw [debugString_plain name h]
  rfl

/-- Witness for C5 (amended) at name `"Light"`, `len = 3`,
`size = Size::new(2, 2)`. -/
theorem C5_message_debug_quoted_witness :
    "Light".toList.all plainChar = true ∧
      FieldCreateError.message
          (FieldCreateError.Size "Light" 3 (Size.new 2 2)) =
        specMessage ("\"" ++ "Light" ++ "\"") 3 (Size.new 2 2) :=
  ⟨by decide, C5_message_debug_quoted "Light" 3 (Size.new 2 2)
    (by decide)⟩

/-- Claim C6 counterexample: the read accessor of `Size` returning both
components is named `size`, not `dimensions` (src/board.rs line 149). -/
theorem C6_accessor_named_size_counterexample :
    Size.accessorName ≠ "dimensions" ∧
      (Size.new 512 256).size = (512, 256) := by
  decide

/-- Claim C6 (amended): `Size` provides a read accessor, named `size`,
that returns the pair `(w, h)` for `Size::new(w, h)`. -/
theorem C6_size_accessor (w h : Nat) :
    (Size.new w h).size = (w, h) ∧ Size.accessorName = "size" :=
  ⟨rfl, rfl⟩


/-- Claim C7: within the expected operating range (board sizes bounded by
the memory available for a field array, hence with `w * h` below the
`usize` modulus), `Size::new(w, h).len()` is the exact mathematical
product `w * h` with no wrap-around. -/
theorem C7_len_no_silent_overflow (w h : Nat) (hlt : w * h < USIZE) :
    (Size.new w h).len = w * h := by
  simp [Size.len, Size.new, Nat.mod_eq_of_lt hlt]

/-- Witness for C7 at `w = 512`, `h = 256`. -/
theorem C7_len_no_silent_overflow_witness :
    512 * 256 < USIZE ∧ (Size.new 512 256).len = 512 * 256 :=
  ⟨by decide, C7_len_no_silent_overflow 512 256 (by decide)⟩

/-- Claim C8: zero width or zero height is permitted: the cell count is
`0`, and `Fields::new` on such a size with an empty array succeeds with
an empty board. -/
theorem C8_zero_size_empty_board (α : Type) (w h : Nat) :
    (Size.new 0 h).len = 0 ∧ (Size.new w 0).len = 0 ∧
      Fields.new (Size.new 0 h) ([] : List α) =
        Except.ok { size := Size.new 0 h, light := [] } ∧
      Fields.new (Size.new w 0) ([] : List α) =
        Except.ok { size := Size.new w 0, light := [] } := by
  refine ⟨?_, ?_, ?_, ?_⟩ <;>
    simp [Size.len, Size.new, Fields.new, USIZE]

/-- Claim C9: `Board::new(m, f)` is total and stores both components
unchanged. -/
theorem C9_board_new_components (α : Type) (m : Multipliers)
    (f : Fields α) :
    (Board.new m f).multipliers = m ∧ (Board.new m f).fields = f :=
  ⟨rfl, rfl⟩

/-- Claim C10: for every representable `u32` value `n`,
`Multipliers::new(n)` is total and stores `n` unchanged, with no
normalization or clamping. -/
theorem C10_multipliers_new_identity (n : Nat) (h : n < 2 ^ 32) :
    (Multipliers.new n).light = n :=
  rfl

/-- Witness for C10 at `n = 1024`. -/
theorem C10_multipliers_new_identity_witness :
    1024 < 2 ^ 32 ∧ (Multipliers.new 1024).light = 1024 :=
  ⟨by decide, C10_multipliers_new_identity 1024 (by decide)⟩

end EvolutionSim
